import Mathlib

/-
Shallow embedding of the Audio_Classification frontend core:
  * src/frontend/src/Dashboard.jsx — incident poller and dashboard renderer
  * src/unnamed/part_000 (App.jsx) — SOS capture session, alert submitter,
    admin gate, reporter result card
The JavaScript is single-threaded and event-driven; asynchronous callbacks
(geolocation result, getUserMedia result, recorder data/stop events, timer
expiry, HTTP completions, interval ticks) are modelled as explicit events
consumed by step functions over explicit state records.
-/

namespace AudioSOS

/-! ## Dashboard data model (Dashboard.jsx) -/

/-- An incident as delivered by `GET /api/v1/incidents`: `id` is an integer
assigned by the backend; `latitude`/`longitude` may arrive as numeric-looking
text, so they are kept as strings here (the renderer parses them only for
display, which no claim computes with). -/
structure Incident where
  id : Int
  timestamp : String
  severity : String
  latitude : String
  longitude : String
deriving DecidableEq, Repr

/-- The order used by `response.data.sort((a, b) => b.id - a.id)`:
`incidentLe a b` holds when `a` may come before `b`, i.e. `b.id ≤ a.id`
(descending by id, newest first). -/
def incidentLe (a b : Incident) : Prop := b.id ≤ a.id

instance : DecidableRel incidentLe := fun a b =>
  inferInstanceAs (Decidable (b.id ≤ a.id))

instance : IsTotal Incident incidentLe :=
  ⟨fun a b => by unfold incidentLe; exact le_total b.id a.id⟩

instance : IsTrans Incident incidentLe :=
  ⟨fun _ _ _ hab hbc => by unfold incidentLe at *; exact le_trans hbc hab⟩

/-- Model of `response.data.sort((a, b) => b.id - a.id)`: a stable sort of the
backend list into descending-id order. -/
def sortIncidents (data : List Incident) : List Incident :=
  List.insertionSort incidentLe data

/-- Outcome of one `axios.get` round trip against `/api/v1/incidents`. -/
inductive FetchOutcome where
  | success (data : List Incident)
  | failure
deriving DecidableEq, Repr

/-- State of the Dashboard component and its polling `useEffect`:
`incidents` is the React state backing the table rows and map markers;
`intervalActive` is whether the `setInterval` handle is still live
(`clearInterval` has not run); `fetchCount` counts fetches issued;
`errorLogs` counts `console.error` diagnostics. -/
structure PollerState where
  mounted : Bool
  intervalActive : Bool
  incidents : List Incident
  fetchCount : Nat
  errorLogs : Nat
deriving DecidableEq, Repr

/-- State right after mount: the effect issues an immediate `fetchData()`
(hence `fetchCount := 1`) and installs the interval. -/
def pollerInit : PollerState :=
  { mounted := true, intervalActive := true, incidents := [],
    fetchCount := 1, errorLogs := 0 }

/-- The fixed polling period of `setInterval(fetchData, 5000)`. -/
def pollIntervalMs : Nat := 5000

/-- Completion of one `fetchData` call. On success the whole incident set is
replaced by the sorted response (`setIncidents(sortedData)`); a state setter
of an unmounted React component has no effect on any rendered output, hence
the `mounted` guard. On failure only `console.error` runs. -/
def fetchData (s : PollerState) (outcome : FetchOutcome) : PollerState :=
  match outcome with
  | .success data =>
      if s.mounted then { s with incidents := sortIncidents data } else s
  | .failure => { s with errorLogs := s.errorLogs + 1 }

/-- Events driving the poller: an interval tick (which issues a fetch while
the interval is live), the completion of an issued fetch, and unmount (whose
cleanup runs `clearInterval(interval)`). -/
inductive PollerEvent where
  | tick
  | complete (outcome : FetchOutcome)
  | unmount
deriving DecidableEq, Repr

def pollerStep (s : PollerState) (e : PollerEvent) : PollerState :=
  match e with
  | .tick =>
      if s.intervalActive then { s with fetchCount := s.fetchCount + 1 } else s
  | .complete outcome => fetchData s outcome
  | .unmount => { s with mounted := false, intervalActive := false }

def runPoller (s : PollerState) (evs : List PollerEvent) : PollerState :=
  List.foldl pollerStep s evs

/-! ## Dashboard renderer helpers (Dashboard.jsx) -/

/-- The severity badge class chosen for a table row (`getSeverityClass`). -/
def getSeverityClass (sev : String) : String :=
  if sev = "High" then "severity-pill severity-high"
  else if sev = "Medium" then "severity-pill severity-medium"
  else "severity-pill severity-low"

/-! ## App.jsx: capture session, alert submitter, admin gate -/

/-- Parsed body of a successful `POST /api/v1/sos_alert` response
(`response.data`): `severity`, `confidence`, `details.incident_id`.
`confidence` is a JS number the core never computes with (it is only
formatted for display), so it is carried opaquely as an `Int`. -/
structure AlertResult where
  severity : String
  confidence : Int
  incidentId : Option String
deriving DecidableEq, Repr

/-- Control position of the capture session between asynchronous callbacks:
`idle` — armed, nothing pending (also all denial/terminal outcomes, which
re-arm the trigger); `geoPending` — `getCurrentPosition` callback pending;
`micPending` — `getUserMedia` promise pending; `recording` — recorder
started, 3000 ms timer pending; `stopPending` — the timer ran
(`mediaRecorder.stop()` issued), `onstop` event pending; `uploadPending` —
the POST issued by `sendAlert` is in flight. -/
inductive Phase where
  | idle
  | geoPending
  | micPending
  | recording
  | stopPending
  | uploadPending
deriving DecidableEq, Repr

/-- One invocation of `sendAlert(lat, lon, audioBlob)`: the multipart parts it
appends. `location` records the location value of the session (an `Option`, since
the spec regards it as present only after geolocation succeeds);
`audioChunks` is the content of the blob built from `audioChunks` in
`onstop`; `text` is `textMessage || "React App SOS Triggered"`. -/
structure SubmitRecord where
  location : Option (Int × Int)
  audioChunks : List Nat
  text : String
deriving DecidableEq, Repr

/-- React state of the App component plus the session-local data held in the
closures of `handleSOS`/`startRecording` (`lat`, `lon`, `audioChunks`, the
recorder handle), and two ghost logs: `alerts` records `window.alert` calls
and `submits` records the `sendAlert` invocations of the current capture
session (a new trigger starts a new session, clearing the log). -/
structure AppState where
  view : String
  isAuthenticated : Bool
  passwordInput : String
  status : String
  isRecording : Bool
  result : Option AlertResult
  textMessage : String
  phase : Phase
  location : Option (Int × Int)
  chunks : List Nat
  micGranted : Bool
  alerts : List String
  submits : List SubmitRecord
deriving DecidableEq, Repr

def appInit : AppState :=
  { view := "user", isAuthenticated := false, passwordInput := "",
    status := "Ready", isRecording := false, result := none,
    textMessage := "", phase := .idle, location := none, chunks := [],
    micGranted := false, alerts := [], submits := [] }

/-- The SOS button carries `disabled={isRecording}`. -/
def sosDisabled (s : AppState) : Bool := s.isRecording

/-- Admin gate (`handleLogin`): literal comparison of the entered password
against the fixed secret; on success authenticate and switch to the admin
view, otherwise `alert("Wrong Password!")`. Neither branch touches
`passwordInput`. -/
def handleLogin (s : AppState) : AppState :=
  if s.passwordInput = "police123" then
    { s with isAuthenticated := true, view := "admin" }
  else
    { s with alerts := s.alerts ++ ["Wrong Password!"] }

/-- Events of one capture session, in source order of the callbacks:
`trigger` is a click on the SOS button (`handleSOS`), parametrised by
whether `navigator.geolocation` exists; `locSuccess`/`locFailure` are the
`getCurrentPosition` callbacks; `micOk`/`micDenied` resolve the
`getUserMedia` promise; `dataAvail` is `ondataavailable`; `timerFires` is
the 3000 ms `setTimeout`; `recorderStopped` is `onstop`; `postSuccess`/
`postFailure` complete the `axios.post`; `setText` edits the textarea
(which carries `disabled={isRecording}`). Callbacks that belong to a
session superseded by a fresh trigger find a mismatched phase and are
dropped. -/
inductive SEvent where
  | trigger (geoSupported : Bool)
  | locSuccess (lat lon : Int)
  | locFailure
  | micOk
  | micDenied
  | dataAvail (chunk : Nat)
  | timerFires
  | recorderStopped
  | postSuccess (r : AlertResult)
  | postFailure
  | setText (t : String)
deriving DecidableEq, Repr

/-- One event-loop step of App.jsx. `trigger` is `handleSOS` (a no-op while
the button is disabled): it sets `isRecording`, sets the status line, and
either bails out with an alert when geolocation is unsupported or issues the
one-shot location request. `locSuccess` is the prefix of `startRecording` up
to the awaited `getUserMedia`; `timerFires` performs `mediaRecorder.stop();
setIsRecording(false)`; `recorderStopped` builds the blob and runs
`sendAlert` up to its awaited POST. -/
def appStep (s : AppState) (e : SEvent) : AppState :=
  match e with
  | .trigger geoSupported =>
      if s.isRecording then s
      else
        let s1 := { s with isRecording := true, status := "Getting Location...",
                           location := none, chunks := [], micGranted := false,
                           submits := [] }
        if geoSupported then
          { s1 with phase := .geoPending }
        else
          { s1 with
              alerts := s1.alerts ++ ["Geolocation is not supported by your browser"],
              isRecording := false, phase := .idle }
  | .locSuccess lat lon =>
      if s.phase = .geoPending then
        { s with status := "🎙️ Recording Audio (3s)...",
                 location := some (lat, lon), phase := .micPending }
      else s
  | .locFailure =>
      if s.phase = .geoPending then
        { s with status := "Error: Location Access Denied",
                 isRecording := false, phase := .idle }
      else s
  | .micOk =>
      if s.phase = .micPending then
        { s with micGranted := true, phase := .recording }
      else s
  | .micDenied =>
      if s.phase = .micPending then
        { s with status := "Error: Mic Access Denied",
                 isRecording := false, phase := .idle }
      else s
  | .dataAvail chunk =>
      if s.phase = .recording ∨ s.phase = .stopPending then
        { s with chunks := s.chunks ++ [chunk] }
      else s
  | .timerFires =>
      if s.phase = .recording then
        { s with isRecording := false, phase := .stopPending }
      else s
  | .recorderStopped =>
      if s.phase = .stopPending then
        { s with status := "📡 Sending Alert to AI...", phase := .uploadPending,
                 submits := s.submits ++
                   [{ location := s.location, audioChunks := s.chunks,
                      text := if s.textMessage = "" then "React App SOS Triggered"
                              else s.textMessage }] }
      else s
  | .postSuccess r =>
      if s.phase = .uploadPending then
        { s with result := some r, status := "✅ Help is on the way!",
                 phase := .idle }
      else s
  | .postFailure =>
      if s.phase = .uploadPending then
        { s with status := "❌ Server Error", phase := .idle }
      else s
  | .setText t =>
      if s.isRecording then s else { s with textMessage := t }

def runApp (s : AppState) (evs : List SEvent) : AppState :=
  List.foldl appStep s evs

/-! ## Reporter result card (App.jsx JSX) -/

/-- Class of the severity block in the result card: the template literal
prepends result-severity and picks severity-high when result.severity equals
the exact string "High", otherwise severity-low. -/
def resultSeverityClass (sev : String) : String :=
  if sev = "High" then "result-severity severity-high"
  else "result-severity severity-low"

/-- The severity text rendered in the result card: `result.severity`,
verbatim. -/
def resultSeverityText (sev : String) : String := sev

/-! ## Invariants of the capture session -/

/-- Invariants maintained by every App state reachable from `appInit`:
while a location request, a mic request or the recording is pending the SOS
button is disabled; the location value is set from `geoPending` onwards and
the mic is granted from `micPending` onwards; no submission has happened yet
before the stop event; the current session submits at most once, and every
submission carries a present location. -/
def AppInv (s : AppState) : Prop :=
  ((s.phase = .geoPending ∨ s.phase = .micPending ∨ s.phase = .recording) →
      s.isRecording = true) ∧
  ((s.phase = .micPending ∨ s.phase = .recording ∨ s.phase = .stopPending) →
      s.location.isSome = true) ∧
  ((s.phase = .recording ∨ s.phase = .stopPending) → s.micGranted = true) ∧
  ((s.phase = .geoPending ∨ s.phase = .micPending ∨ s.phase = .recording ∨
      s.phase = .stopPending) → s.submits = []) ∧
  s.submits.length ≤ 1 ∧
  (∀ sub ∈ s.submits, sub.location.isSome = true)

theorem appInv_init : AppInv appInit := by
  unfold AppInv appInit; decide

theorem appInv_step (s : AppState) (e : SEvent) (h : AppInv s) :
    AppInv (appStep s e) := by
  cases e with
  | trigger g =>
      by_cases hr : s.isRecording
      · simpa [appStep, hr] using h
      · cases g
        · unfold AppInv; refine ⟨?_, ?_, ?_, ?_, ?_, ?_⟩ <;> simp [appStep, hr]
        · unfold AppInv; refine ⟨?_, ?_, ?_, ?_, ?_, ?_⟩ <;> simp [appStep, hr]
  | locSuccess lat lon =>
      by_cases hp : s.phase = .geoPending
      · have hrec : s.isRecording = true := h.1 (Or.inl hp)
        have hsub : s.submits = [] := h.2.2.2.1 (Or.inl hp)
        unfold AppInv
        refine ⟨?_, ?_, ?_, ?_, ?_, ?_⟩ <;> simp [appStep, hp, hrec, hsub]
      · simpa [appStep, hp] using h
  | locFailure =>
      by_cases hp : s.phase = .geoPending
      · unfold AppInv
        refine ⟨?_, ?_, ?_, ?_, ?_, ?_⟩
        · simp [appStep, hp]
        · simp [appStep, hp]
        · simp [appStep, hp]
        · simp [appStep, hp]
        · simpa [appStep, hp] using h.2.2.2.2.1
        · simpa [appStep, hp] using h.2.2.2.2.2
      · simpa [appStep, hp] using h
  | micOk =>
      by_cases hp : s.phase = .micPending
      · have hrec : s.isRecording = true := h.1 (Or.inr (Or.inl hp))
        have hloc : s.location.isSome = true := h.2.1 (Or.inl hp)
        have hsub : s.submits = [] := h.2.2.2.1 (Or.inr (Or.inl hp))
        unfold AppInv
        refine ⟨?_, ?_, ?_, ?_, ?_, ?_⟩ <;> simp [appStep, hp, hrec, hloc, hsub]
      · simpa [appStep, hp] using h
  | micDenied =>
      by_cases hp : s.phase = .micPending
      · unfold AppInv
        refine ⟨?_, ?_, ?_, ?_, ?_, ?_⟩
        · simp [appStep, hp]
        · simp [appStep, hp]
        · simp [appStep, hp]
        · simp [appStep, hp]
        · simpa [appStep, hp] using h.2.2.2.2.1
        · simpa [appStep, hp] using h.2.2.2.2.2
      · simpa [appStep, hp] using h
  | dataAvail c =>
      by_cases hp : s.phase = .recording ∨ s.phase = .stopPending
      · simp only [appStep]; rw [if_pos hp]; exact h
      · simp only [appStep]; rw [if_neg hp]; exact h
  | timerFires =>
      by_cases hp : s.phase = .recording
      · have hloc : s.location.isSome = true := h.2.1 (Or.inr (Or.inl hp))
        have hmic : s.micGranted = true := h.2.2.1 (Or.inl hp)
        have hsub : s.submits = [] := h.2.2.2.1 (Or.inr (Or.inr (Or.inl hp)))
        unfold AppInv
        refine ⟨?_, ?_, ?_, ?_, ?_, ?_⟩ <;> simp [appStep, hp, hloc, hmic, hsub]
      · simpa [appStep, hp] using h
  | recorderStopped =>
      by_cases hp : s.phase = .stopPending
      · have hloc : s.location.isSome = true := h.2.1 (Or.inr (Or.inr hp))
        have hsub : s.submits = [] := h.2.2.2.1 (Or.inr (Or.inr (Or.inr hp)))
        unfold AppInv
        refine ⟨?_, ?_, ?_, ?_, ?_, ?_⟩ <;> simp [appStep, hp, hloc, hsub]
      · simpa [appStep, hp] using h
  | postSuccess r =>
      by_cases hp : s.phase = .uploadPending
      · unfold AppInv
        refine ⟨?_, ?_, ?_, ?_, ?_, ?_⟩
        · simp [appStep, hp]
        · simp [appStep, hp]
        · simp [appStep, hp]
        · simp [appStep, hp]
        · simpa [appStep, hp] using h.2.2.2.2.1
        · simpa [appStep, hp] using h.2.2.2.2.2
      · simpa [appStep, hp] using h
  | postFailure =>
      by_cases hp : s.phase = .uploadPending
      · unfold AppInv
        refine ⟨?_, ?_, ?_, ?_, ?_, ?_⟩
        · simp [appStep, hp]
        · simp [appStep, hp]
        · simp [appStep, hp]
        · simp [appStep, hp]
        · simpa [appStep, hp] using h.2.2.2.2.1
        · simpa [appStep, hp] using h.2.2.2.2.2
      · simpa [appStep, hp] using h
  | setText t =>
      by_cases hr : s.isRecording
      · simp only [appStep]; rw [if_pos hr]; exact h
      · simp only [appStep]; rw [if_neg hr]; exact h

theorem appInv_run (evs : List SEvent) : AppInv (runApp appInit evs) := by
  have H : ∀ (l : List SEvent) (s : AppState), AppInv s →
      AppInv (List.foldl appStep s l) := by
    intro l
    induction l with
    | nil => exact fun _ hs => hs
    | cons e t ih => exact fun s hs => ih (appStep s e) (appInv_step s e hs)
  exact H evs appInit appInv_init

/-! ## Invariants of the poller -/

theorem poller_incidents_sorted (evs : List PollerEvent) (s : PollerState)
    (h : s.incidents.Pairwise incidentLe) :
    (runPoller s evs).incidents.Pairwise incidentLe := by
  induction evs generalizing s with
  | nil => exact h
  | cons e t ih =>
      have hstep : (pollerStep s e).incidents.Pairwise incidentLe := by
        cases e with
        | tick =>
            by_cases ha : s.intervalActive <;> simpa [pollerStep, ha] using h
        | complete outcome =>
            cases outcome with
            | success data =>
                by_cases hm : s.mounted
                · have hs := List.sorted_insertionSort incidentLe data
                  simpa [pollerStep, fetchData, hm, sortIncidents] using hs
                · simpa [pollerStep, fetchData, hm] using h
            | failure => simpa [pollerStep, fetchData] using h
        | unmount => simpa [pollerStep] using h
      simpa [runPoller] using ih (pollerStep s e) hstep

theorem poller_dead (evs : List PollerEvent) (s : PollerState)
    (hm : s.mounted = false) (ha : s.intervalActive = false) :
    (runPoller s evs).fetchCount = s.fetchCount ∧
    (runPoller s evs).incidents = s.incidents := by
  induction evs generalizing s with
  | nil => exact ⟨rfl, rfl⟩
  | cons e t ih =>
      cases e with
      | tick =>
          simpa [runPoller, pollerStep, ha] using ih s hm ha
      | complete outcome =>
          cases outcome with
          | success data =>
              simpa [runPoller, pollerStep, fetchData, hm] using ih s hm ha
          | failure =>
              have h2 := ih { s with errorLogs := s.errorLogs + 1 } hm ha
              simpa [runPoller, pollerStep, fetchData] using h2
      | unmount =>
          have h2 := ih { s with mounted := false, intervalActive := false }
            rfl rfl
          simpa [runPoller, pollerStep] using h2

/-! ## Claim theorems -/

/-- C1: every incident set the dashboard stores is sorted by id descending.
In every state reachable from mount the stored set is pairwise descending in
id, and a successful fetch applied to a mounted dashboard stores exactly a
descending-sorted permutation of the backend list, whatever its order. -/
theorem incidents_sorted_desc (evs : List PollerEvent) (s : PollerState)
    (data : List Incident) (hm : s.mounted = true) :
    ((runPoller pollerInit evs).incidents).Pairwise incidentLe ∧
    ((pollerStep s (.complete (.success data))).incidents).Pairwise incidentLe ∧
    (pollerStep s (.complete (.success data))).incidents.Perm data := by
  refine ⟨poller_incidents_sorted evs pollerInit (by simp [pollerInit]), ?_, ?_⟩
  · have hs := List.sorted_insertionSort incidentLe data
    simpa [pollerStep, fetchData, hm, sortIncidents] using hs
  · have hs := List.perm_insertionSort incidentLe data
    simpa [pollerStep, fetchData, hm, sortIncidents] using hs

theorem incidents_sorted_desc_witness :
    ((runPoller pollerInit []).incidents).Pairwise incidentLe ∧
    ((pollerStep pollerInit (.complete (.success
        [⟨5, "t5", "Low", "12.9", "77.6"⟩,
         ⟨7, "t7", "High", "28.6", "77.2"⟩]))).incidents).Pairwise incidentLe ∧
    (pollerStep pollerInit (.complete (.success
        [⟨5, "t5", "Low", "12.9", "77.6"⟩,
         ⟨7, "t7", "High", "28.6", "77.2"⟩]))).incidents.Perm
      [⟨5, "t5", "Low", "12.9", "77.6"⟩,
       ⟨7, "t7", "High", "28.6", "77.2"⟩] :=
  incidents_sorted_desc [] pollerInit
    [⟨5, "t5", "Low", "12.9", "77.6"⟩, ⟨7, "t7", "High", "28.6", "77.2"⟩] rfl

/-- C2, as stated, is false: after the 3000 ms timer fires, the code runs
`mediaRecorder.stop(); setIsRecording(false)`, so by the time `onstop` starts
the upload the SOS button is already re-enabled. The concrete trace below
reaches the in-flight-POST state (`uploadPending`) with the trigger enabled. -/
theorem trigger_enabled_while_uploading :
    (runApp appInit [.trigger true, .locSuccess 12 77, .micOk, .dataAvail 1,
        .timerFires, .recorderStopped]).phase = .uploadPending ∧
    sosDisabled (runApp appInit [.trigger true, .locSuccess 12 77, .micOk,
        .dataAvail 1, .timerFires, .recorderStopped]) = false := by
  decide

/-- C2 amended: the SOS trigger is disabled from the trigger through location
acquisition, mic acquisition and the whole Recording span, i.e. in every
reachable state whose phase is `geoPending`, `micPending` or `recording`;
it is re-enabled when the fixed-duration timer stops the recorder, before
Uploading begins. -/
theorem trigger_disabled_until_timer (evs : List SEvent)
    (h : (runApp appInit evs).phase = .geoPending ∨
         (runApp appInit evs).phase = .micPending ∨
         (runApp appInit evs).phase = .recording) :
    sosDisabled (runApp appInit evs) = true :=
  (appInv_run evs).1 h

theorem trigger_disabled_until_timer_witness :
    sosDisabled (runApp appInit [.trigger true]) = true :=
  trigger_disabled_until_timer [.trigger true] (Or.inl (by decide))

/-- C3: unmount runs the effect cleanup `clearInterval(interval)`, after
which no tick issues a fetch (the fetch count never changes again) and no
completion — in particular none of the fetches pending at unmount time —
ever changes the incident set again: a React state setter invoked on an
unmounted component has no effect on any rendered output. -/
theorem no_fetch_after_unmount (s : PollerState) (evs : List PollerEvent) :
    (runPoller (pollerStep s .unmount) evs).fetchCount
        = (pollerStep s .unmount).fetchCount ∧
    (runPoller (pollerStep s .unmount) evs).incidents
        = (pollerStep s .unmount).incidents ∧
    (pollerStep s .unmount).fetchCount = s.fetchCount ∧
    (pollerStep s .unmount).incidents = s.incidents := by
  have h := poller_dead evs (pollerStep s .unmount) rfl rfl
  exact ⟨h.1, h.2, rfl, rfl⟩

/-- C4, as stated, is false: when geolocation is unsupported the session
does fail immediately, but not with the same status report as an explicit
denial. The unsupported branch raises a blocking alert and leaves the status
line at the in-progress text, while the denial callback sets the status line
to the denial message and raises no alert. -/
theorem geo_unsupported_differs_from_denial :
    (runApp appInit [.trigger false]).status = "Getting Location..." ∧
    (runApp appInit [.trigger false]).alerts
        = ["Geolocation is not supported by your browser"] ∧
    (runApp appInit [.trigger true, .locFailure]).status
        = "Error: Location Access Denied" ∧
    (runApp appInit [.trigger true, .locFailure]).alerts = [] ∧
    (runApp appInit [.trigger false]).status ≠
        (runApp appInit [.trigger true, .locFailure]).status := by
  decide

/-- C4 amended: when geolocation is unsupported a triggered session fails
immediately — no location request is issued, the session never enters the
awaiting-location phase, and the trigger is re-armed — but the outcome is
reported through a blocking alert with the status line left at
"Getting Location...", whereas an explicit denial sets the status line to
"Error: Location Access Denied" and raises no alert. -/
theorem geo_unsupported_outcome (s u : AppState) (hs : s.isRecording = false)
    (hu : u.phase = .geoPending) :
    (appStep s (.trigger false)).phase = .idle ∧
    (appStep s (.trigger false)).isRecording = false ∧
    (appStep s (.trigger false)).status = "Getting Location..." ∧
    (appStep s (.trigger false)).alerts
        = s.alerts ++ ["Geolocation is not supported by your browser"] ∧
    (appStep u .locFailure).status = "Error: Location Access Denied" ∧
    (appStep u .locFailure).alerts = u.alerts := by
  refine ⟨?_, ?_, ?_, ?_, ?_, ?_⟩ <;> simp [appStep, hs, hu]

theorem geo_unsupported_outcome_witness :
    (appStep appInit (.trigger false)).phase = .idle ∧
    (appStep appInit (.trigger false)).isRecording = false ∧
    (appStep appInit (.trigger false)).status = "Getting Location..." ∧
    (appStep appInit (.trigger false)).alerts
        = appInit.alerts ++ ["Geolocation is not supported by your browser"] ∧
    (appStep (runApp appInit [.trigger true]) .locFailure).status
        = "Error: Location Access Denied" ∧
    (appStep (runApp appInit [.trigger true]) .locFailure).alerts
        = (runApp appInit [.trigger true]).alerts :=
  geo_unsupported_outcome appInit (runApp appInit [.trigger true]) rfl
    (by decide)

/-- C5, as stated, is false: `handleSOS` never clears `result`, so the
stored result of the previous session is still present after the next
trigger fires (the trace below ends right after the new trigger, with the
new session already in `geoPending` and the old result still stored). -/
theorem result_retained_after_retrigger :
    (runApp appInit [.trigger true, .locSuccess 12 77, .micOk, .timerFires,
        .recorderStopped, .postSuccess ⟨"High", 92, some "42"⟩,
        .trigger true]).result = some ⟨"High", 92, some "42"⟩ ∧
    (runApp appInit [.trigger true, .locSuccess 12 77, .micOk, .timerFires,
        .recorderStopped, .postSuccess ⟨"High", 92, some "42"⟩,
        .trigger true]).phase = .geoPending := by
  decide

/-- C5 amended: a new trigger resets the in-progress capture data — status
line, per-session location, audio chunks and submission log — and starts a
fresh session, but the stored result of the previous session and the entered
text message are retained; the result is only replaced by the next
successful submission. -/
theorem trigger_preserves_result (s : AppState) (g : Bool)
    (h : s.isRecording = false) :
    (appStep s (.trigger g)).result = s.result ∧
    (appStep s (.trigger g)).textMessage = s.textMessage ∧
    (appStep s (.trigger g)).status = "Getting Location..." ∧
    (appStep s (.trigger g)).location = none ∧
    (appStep s (.trigger g)).chunks = [] ∧
    (appStep s (.trigger g)).submits = [] := by
  cases g <;> refine ⟨?_, ?_, ?_, ?_, ?_, ?_⟩ <;> simp [appStep, h]

theorem trigger_preserves_result_witness :
    (appStep { appInit with result := some ⟨"High", 92, some "42"⟩ }
        (.trigger true)).result
      = ({ appInit with result := some ⟨"High", 92, some "42"⟩ }
          : AppState).result ∧
    (appStep { appInit with result := some ⟨"High", 92, some "42"⟩ }
        (.trigger true)).textMessage
      = ({ appInit with result := some ⟨"High", 92, some "42"⟩ }
          : AppState).textMessage ∧
    (appStep { appInit with result := some ⟨"High", 92, some "42"⟩ }
        (.trigger true)).status = "Getting Location..." ∧
    (appStep { appInit with result := some ⟨"High", 92, some "42"⟩ }
        (.trigger true)).location = none ∧
    (appStep { appInit with result := some ⟨"High", 92, some "42"⟩ }
        (.trigger true)).chunks = [] ∧
    (appStep { appInit with result := some ⟨"High", 92, some "42"⟩ }
        (.trigger true)).submits = [] :=
  trigger_preserves_result
    { appInit with result := some ⟨"High", 92, some "42"⟩ } true rfl

/-- C6: in every reachable App state the current session has invoked
`sendAlert` at most once, every recorded invocation carries a present
location pair, and in the state from which the submit fires (the pending
`onstop`, phase `stopPending`) the location is present and the mic was
granted, so the audio blob the handler builds from the accumulated chunks
exists. -/
theorem submit_at_most_once (evs : List SEvent) :
    (runApp appInit evs).submits.length ≤ 1 ∧
    (∀ sub ∈ (runApp appInit evs).submits, sub.location.isSome = true) ∧
    ((runApp appInit evs).phase = .stopPending →
      (runApp appInit evs).location.isSome = true ∧
      (runApp appInit evs).micGranted = true) := by
  have h := appInv_run evs
  exact ⟨h.2.2.2.2.1, h.2.2.2.2.2,
    fun hp => ⟨h.2.1 (Or.inr (Or.inr hp)), h.2.2.1 (Or.inr hp)⟩⟩

theorem submit_at_most_once_witness :
    (runApp appInit [.trigger true, .locSuccess 12 77, .micOk, .dataAvail 2,
        .timerFires, .recorderStopped, .postSuccess ⟨"High", 92, some "42"⟩
        ]).submits.length ≤ 1 ∧
    (∀ sub ∈ (runApp appInit [.trigger true, .locSuccess 12 77, .micOk,
        .dataAvail 2, .timerFires, .recorderStopped,
        .postSuccess ⟨"High", 92, some "42"⟩]).submits,
      sub.location.isSome = true) ∧
    ((runApp appInit [.trigger true, .locSuccess 12 77, .micOk, .dataAvail 2,
        .timerFires, .recorderStopped, .postSuccess ⟨"High", 92, some "42"⟩
        ]).phase = .stopPending →
      (runApp appInit [.trigger true, .locSuccess 12 77, .micOk, .dataAvail 2,
          .timerFires, .recorderStopped, .postSuccess ⟨"High", 92, some "42"⟩
          ]).location.isSome = true ∧
      (runApp appInit [.trigger true, .locSuccess 12 77, .micOk, .dataAvail 2,
          .timerFires, .recorderStopped, .postSuccess ⟨"High", 92, some "42"⟩
          ]).micGranted = true) :=
  submit_at_most_once [.trigger true, .locSuccess 12 77, .micOk, .dataAvail 2,
    .timerFires, .recorderStopped, .postSuccess ⟨"High", 92, some "42"⟩]

/-- C7: a failed fetch changes nothing but the diagnostic log counter — the
stored incident set, the fetch count, mountedness and the liveness of the
interval are all untouched, and the polling period is the fixed 5000 ms. -/
theorem fetch_failure_preserves_incidents (s : PollerState) :
    pollerStep s (.complete .failure) = { s with errorLogs := s.errorLogs + 1 } ∧
    pollIntervalMs = 5000 :=
  ⟨rfl, rfl⟩

/-- C8: the badge-class function maps exactly "High" to the high style,
exactly "Medium" to the medium style, and every other string — including
the empty string, lower-case "low" and unknown values such as "Critical" —
to the low style. -/
theorem severity_badge_mapping (sev : String) :
    getSeverityClass "High" = "severity-pill severity-high" ∧
    getSeverityClass "Medium" = "severity-pill severity-medium" ∧
    (sev ≠ "High" → sev ≠ "Medium" →
      getSeverityClass sev = "severity-pill severity-low") ∧
    getSeverityClass "" = "severity-pill severity-low" ∧
    getSeverityClass "low" = "severity-pill severity-low" ∧
    getSeverityClass "Critical" = "severity-pill severity-low" := by
  refine ⟨by decide, by decide, ?_, by decide, by decide, by decide⟩
  intro h1 h2
  simp [getSeverityClass, h1, h2]

theorem severity_badge_mapping_witness :
    getSeverityClass "low" = "severity-pill severity-low" :=
  (severity_badge_mapping "low").2.2.1 (by decide) (by decide)

/-- C9: `handleLogin` with the one fixed secret authenticates and moves the
view to admin; with any other input it raises the blocking
"Wrong Password!" alert, leaves the view on the login screen (view still
admin with `authenticated` still false), and does not clear the entered
password. -/
theorem login_gate (s : AppState) (hview : s.view = "admin")
    (hauth : s.isAuthenticated = false) :
    (s.passwordInput = "police123" →
      (handleLogin s).isAuthenticated = true ∧
      (handleLogin s).view = "admin") ∧
    (s.passwordInput ≠ "police123" →
      (handleLogin s).alerts = s.alerts ++ ["Wrong Password!"] ∧
      (handleLogin s).view = "admin" ∧
      (handleLogin s).isAuthenticated = false ∧
      (handleLogin s).passwordInput = s.passwordInput) := by
  constructor
  · intro hp; simp [handleLogin, hp]
  · intro hp; simp [handleLogin, hp, hview, hauth]

theorem login_gate_witness :
    (handleLogin { appInit with view := "admin", passwordInput := "oops" }
        ).alerts
      = ({ appInit with view := "admin", passwordInput := "oops" }
          : AppState).alerts ++ ["Wrong Password!"] ∧
    (handleLogin { appInit with view := "admin", passwordInput := "oops" }
        ).view = "admin" ∧
    (handleLogin { appInit with view := "admin", passwordInput := "oops" }
        ).isAuthenticated = false ∧
    (handleLogin { appInit with view := "admin", passwordInput := "oops" }
        ).passwordInput
      = ({ appInit with view := "admin", passwordInput := "oops" }
          : AppState).passwordInput :=
  (login_gate { appInit with view := "admin", passwordInput := "oops" }
    rfl rfl).2 (by decide)

/-- C10: the result card distinguishes only the exact string "High" — every
other severity value, including "Medium", gets the low styling — while the
severity text itself is rendered verbatim; this differs from the three-way
dashboard badge rule, which gives "Medium" its own style. -/
theorem result_card_severity (sev : String) (h : sev ≠ "High") :
    resultSeverityClass "High" = "result-severity severity-high" ∧
    resultSeverityClass sev = "result-severity severity-low" ∧
    resultSeverityClass "Medium" = "result-severity severity-low" ∧
    resultSeverityText sev = sev ∧
    getSeverityClass "Medium" ≠ "severity-pill severity-low" := by
  refine ⟨by decide, ?_, by decide, rfl, by decide⟩
  simp [resultSeverityClass, h]

theorem result_card_severity_witness :
    resultSeverityClass "High" = "result-severity severity-high" ∧
    resultSeverityClass "Medium" = "result-severity severity-low" ∧
    resultSeverityClass "Medium" = "result-severity severity-low" ∧
    resultSeverityText "Medium" = "Medium" ∧
    getSeverityClass "Medium" ≠ "severity-pill severity-low" :=
  result_card_severity "Medium" (by decide)

end AudioSOS
